import Mathlib

/-!
Verification of the mongodump orchestration core (mongodump.go) against its
natural-language specification.  Go code is shallowly embedded: option structs
become Lean structures, the `ValidateOptions` switch becomes a chain of
conditionals, and the effectful phases of `Dump` / `dumpValidatedQueryToIntent`
/ `DumpPreludeMetadata` become pure functions over an explicit environment
recording the outcomes of the external calls (session queries, file opens,
closes, cursor iteration), returning the produced result together with a trace
of observable events.
-/

/-! ## Data model: option structures (options.go / mongodump.go) -/

/-- Tool-level options: the `(db, collection)` namespace selector and the tool
version string.  In Go these live in `ToolOptions.Namespace` (promoted fields
`DB` / `Collection`) and `ToolOptions.VersionStr`. -/
structure ToolOptions where
  db : String
  collection : String
  versionStr : String
  deriving DecidableEq

/-- Input options consulted by `ValidateOptions` and `Dump`. -/
structure InputOptions where
  query : String
  queryFile : String
  tableScan : Bool
  sourceWritesDoneBarrier : String
  deriving DecidableEq

/-- Output options consulted by `ValidateOptions`, `DumpIntents`,
`DumpPreludeMetadata` and the sink selection in `Dump`. -/
structure OutputOptions where
  out : String
  archive : String
  gzip : Bool
  oplog : Bool
  dumpDBUsersAndRoles : Bool
  excludedCollections : List String
  excludedCollectionPrefixes : List String
  numParallelCollections : Int
  viewsAsCollections : Bool
  deriving DecidableEq

/-- The `MongoDump` state consulted by `ValidateOptions`. -/
structure MongoDump where
  toolOptions : ToolOptions
  inputOptions : InputOptions
  outputOptions : OutputOptions
  isAtlasProxy : Bool
  deriving DecidableEq

/-- Model of Go's `strings.HasPrefix(s, pre)`, evaluated structurally on the
character lists. -/
def goHasPrefix (s pre : String) : Bool := pre.toList.isPrefixOf s.toList

/-- Embedding of `MongoDump.ValidateOptions` (mongodump.go lines 89-136): the
Go `switch` is a first-match chain of conditions; `some msg` models returning
the corresponding non-nil error, `none` models returning nil. -/
def validateOptions (d : MongoDump) : Option String :=
  if d.outputOptions.out = "-" ∧ d.toolOptions.collection = "" then
    some "can only dump a single collection to stdout"
  else if d.toolOptions.db = "" ∧ d.toolOptions.collection ≠ "" then
    some "cannot dump a collection without a specified database"
  else if d.inputOptions.query ≠ "" ∧ d.toolOptions.collection = "" then
    some "cannot dump using a query without a specified collection"
  else if d.inputOptions.queryFile ≠ "" ∧ d.toolOptions.collection = "" then
    some "cannot dump using a queryFile without a specified collection"
  else if d.inputOptions.query ≠ "" ∧ d.inputOptions.queryFile ≠ "" then
    some "either query or queryFile can be specified as a query option, not both"
  else if d.inputOptions.query ≠ "" ∧ d.inputOptions.tableScan then
    some "cannot use --forceTableScan when specifying --query"
  else if d.outputOptions.dumpDBUsersAndRoles ∧ d.toolOptions.db = "" then
    some "must specify a database when running with dumpDbUsersAndRoles"
  else if d.outputOptions.dumpDBUsersAndRoles ∧ d.toolOptions.collection ≠ "" then
    some "cannot specify a collection when running with dumpDbUsersAndRoles"
  else if goHasPrefix d.toolOptions.collection "system.buckets." then
    some "cannot specify a system.buckets collection in --collection"
  else if d.outputOptions.oplog ∧ d.toolOptions.db ≠ "" then
    some "--oplog mode only supported on full dumps"
  else if d.outputOptions.excludedCollections ≠ [] ∧ d.toolOptions.collection ≠ "" then
    some "--collection is not allowed when --excludeCollection is specified"
  else if d.outputOptions.excludedCollectionPrefixes ≠ [] ∧ d.toolOptions.collection ≠ "" then
    some "--collection is not allowed when --excludeCollectionsWithPrefix is specified"
  else if d.outputOptions.excludedCollections ≠ [] ∧ d.toolOptions.db = "" then
    some "--db is required when --excludeCollection is specified"
  else if d.outputOptions.excludedCollectionPrefixes ≠ [] ∧ d.toolOptions.db = "" then
    some "--db is required when --excludeCollectionsWithPrefix is specified"
  else if d.outputOptions.out ≠ "" ∧ d.outputOptions.archive ≠ "" then
    some "--out not allowed when --archive is specified"
  else if d.outputOptions.out = "-" ∧ d.outputOptions.gzip then
    some "compression can't be used when dumping a single collection to standard output"
  else if d.outputOptions.numParallelCollections ≤ 0 then
    some "numParallelCollections must be positive"
  else if d.isAtlasProxy ∧ (d.outputOptions.dumpDBUsersAndRoles ∨ d.toolOptions.db = "admin") then
    some "can't dump from admin database when connecting to a MongoDB Atlas free or shared cluster"
  else
    none

/-! ## DumpIntents worker-count and finalize policy (mongodump.go lines 536-546) -/

/-- The two intent-manager finalize policies (`intents.Legacy`,
`intents.LongestTaskFirst`). -/
inductive FinalizePolicy where
  | legacy
  | longestTaskFirst
  deriving DecidableEq

/-- `jobs := NumParallelCollections; if jobs > numIntents { jobs = numIntents }`
from `DumpIntents`.  `numParallel` is a Go `int`, hence `Int`. -/
def dumpIntentsJobs (numParallel : Int) (numIntents : Nat) : Int :=
  if numParallel > (numIntents : Int) then (numIntents : Int) else numParallel

/-- `if jobs > 1 { Finalize(LongestTaskFirst) } else { Finalize(Legacy) }`
from `DumpIntents`. -/
def dumpIntentsPolicy (jobs : Int) : FinalizePolicy :=
  if jobs > 1 then .longestTaskFirst else .legacy

/-- `for i := 0; i < jobs; i++ { go ... }` from `DumpIntents`: the number of
worker goroutines actually spawned by the loop. -/
def dumpIntentsWorkers (jobs : Int) : Nat :=
  jobs.toNat

/-! ## Oplog capture phase of `Dump` (mongodump.go lines 424-509)

The effectful calls of phase II/III are replaced by an environment recording
the outcome each external call would produce; the embedding returns the trace
of observable events together with the error result (`none` = nil error). -/

/-- Outcomes of the external calls made by `Dump` during phases II and III.
Timestamps are abstracted to `Nat` (only their ordering matters); base errors
are abstracted to `Nat` tags. -/
structure OplogPhaseEnv where
  /-- outcome of `waitForSourceWritesDoneBarrier` -/
  barrierErr : Option Nat
  /-- outcome of `getCurrentOplogTime` (the `oplogEnd` capture) -/
  endTime : Except Nat Nat
  /-- first `checkOplogTimestampExists(oplogStart)`: the `exists` return -/
  check1Exists : Bool
  /-- first `checkOplogTimestampExists(oplogStart)`: the `err` return -/
  check1Err : Option Nat
  /-- outcome of `DumpOplogBetweenTimestamps` -/
  copyErr : Option Nat
  /-- second `checkOplogTimestampExists(oplogStart)`: the `exists` return -/
  check2Exists : Bool
  /-- second `checkOplogTimestampExists(oplogStart)`: the `err` return -/
  check2Err : Option Nat
  /-- the timestamps present in the server's oplog collection -/
  oplogEntries : List Nat

/-- Errors surfaced by phases II/III of `Dump`. Both rollover checks return
the same "oplog overflow: mongodump was unable to capture all new oplog
entries during execution" error, modelled as `oplogOverflow`. -/
inductive DumpPhaseErr where
  | intentsErr (e : Nat)
  | barrierErr (e : Nat)
  | oplogEndErr (e : Nat)
  | oplogOverflow
  | checkOverflowErr (e : Nat)
  | oplogCopyErr (e : Nat)
  deriving DecidableEq

/-- Observable events of phases II-IV of `Dump`, in program order. -/
inductive OplogEvent where
  /-- `DumpIntents` returned nil: all collection dumps finished -/
  | collectionsDone
  /-- `dump.oplogEnd, err = dump.getCurrentOplogTime()` succeeded -/
  | recordEnd (ts : Nat)
  /-- first `checkOplogTimestampExists(dump.oplogStart)` returned `ok` -/
  | precheck (ok : Bool)
  /-- `DumpOplogBetweenTimestamps(oplogStart, oplogEnd)` ran, copying `entries` -/
  | copy (entries : List Nat)
  /-- second `checkOplogTimestampExists(dump.oplogStart)` returned `ok` -/
  | postcheck (ok : Bool)
  /-- `DumpPreludeMetadata` ran (phase IV) -/
  | preludePhase
  deriving DecidableEq

/-- Modelled from the spec: the body of `DumpOplogBetweenTimestamps` is not in
the provided source (only its call site is); per the spec it copies "all oplog
entries with `oplogStart ≤ ts ≤ oplogEnd`" into the oplog intent. -/
def dumpOplogBetweenTimestamps (start stop : Nat) (entries : List Nat) : List Nat :=
  entries.filter fun ts => decide (start ≤ ts ∧ ts ≤ stop)

/-- The oplog end-capture, pre-check, copy and post-check steps of phase III
of `Dump` (mongodump.go lines 454-496), after the optional barrier wait. -/
def oplogCaptureSteps (start : Nat) (env : OplogPhaseEnv) :
    List OplogEvent × Option DumpPhaseErr :=
  match env.endTime with
  | .error e => ([], some (.oplogEndErr e))
  | .ok tEnd =>
    let ev1 := [OplogEvent.recordEnd tEnd, OplogEvent.precheck env.check1Exists]
    if !env.check1Exists then (ev1, some .oplogOverflow)
    else
      match env.check1Err with
      | some e => (ev1, some (.checkOverflowErr e))
      | none =>
        let copied := dumpOplogBetweenTimestamps start tEnd env.oplogEntries
        let ev2 := ev1 ++ [OplogEvent.copy copied]
        match env.copyErr with
        | some e => (ev2, some (.oplogCopyErr e))
        | none =>
          let ev3 := ev2 ++ [OplogEvent.postcheck env.check2Exists]
          if !env.check2Exists then (ev3, some .oplogOverflow)
          else
            match env.check2Err with
            | some e => (ev3, some (.checkOverflowErr e))
            | none => (ev3, none)

/-- Embedding of the phase III (`if dump.OutputOptions.Oplog { ... }`) block of
`Dump` (mongodump.go lines 441-496), given the already-captured `oplogStart`:
the barrier wait runs only when `SourceWritesDoneBarrier` is set, and its
failure aborts the phase. -/
def oplogPhase (hasBarrier : Bool) (start : Nat) (env : OplogPhaseEnv) :
    List OplogEvent × Option DumpPhaseErr :=
  match (if hasBarrier then env.barrierErr else none) with
  | some e => ([], some (.barrierErr e))
  | none => oplogCaptureSteps start env

/-- Phases II and III of `Dump`: run `DumpIntents` (outcome `intentsErr`), and
when `--oplog` is set run the oplog capture protocol.  `hasBarrier` models
`dump.InputOptions.SourceWritesDoneBarrier != ""`. -/
def dumpCollectionsAndOplog (oplogEnabled hasBarrier : Bool) (intentsErr : Option Nat)
    (start : Nat) (env : OplogPhaseEnv) : List OplogEvent × Option DumpPhaseErr :=
  match intentsErr with
  | some e => ([], some (.intentsErr e))
  | none =>
    if oplogEnabled then
      let r := oplogPhase hasBarrier start env
      (OplogEvent.collectionsDone :: r.1, r.2)
    else ([OplogEvent.collectionsDone], none)

/-- The phase IV gate of `Dump` (mongodump.go line 498):
`dump.OutputOptions.Archive == "" && dump.OutputOptions.Out != "-"`. -/
def shouldDumpPreludeMetadata (o : OutputOptions) : Bool :=
  o.archive == "" && !(o.out == "-")

/-- Phases II-IV of `Dump`: collections, oplog capture, and - when the phase IV
gate holds and no error occurred - the `DumpPreludeMetadata` call. -/
def dumpPhases (oplogEnabled hasBarrier : Bool) (intentsErr : Option Nat)
    (start : Nat) (env : OplogPhaseEnv) (o : OutputOptions) :
    List OplogEvent × Option DumpPhaseErr :=
  let r := dumpCollectionsAndOplog oplogEnabled hasBarrier intentsErr start env
  match r.2 with
  | some e => (r.1, some e)
  | none =>
    if shouldDumpPreludeMetadata o then (r.1 ++ [OplogEvent.preludePhase], none)
    else (r.1, none)

/-- `a` occurs strictly before `b` in the trace `tr`. -/
def eventBefore (tr : List OplogEvent) (a b : OplogEvent) : Prop :=
  ∃ i j, i < j ∧ tr.get? i = some a ∧ tr.get? j = some b

/-! ## Timeseries query rewrite in `DumpIntent` (mongodump.go lines 604-637)

Query predicate keys are modelled as `List Char` (Go strings); predicate
values are opaque (`Nat` tags). -/

/-- Model of `strings.SplitN(s, ".", 2)`: the text before the first `'.'`,
and - when a `'.'` occurs - the text after it. -/
def splitFirstDot : List Char → List Char × Option (List Char)
  | [] => ([], none)
  | c :: rest =>
    if c = '.' then ([], some rest)
    else
      let r := splitFirstDot rest
      (c :: r.1, r.2)

/-- The in-loop rewrite of one predicate key (mongodump.go lines 628-633):
`dump.query[i].Key = "meta." + splitPredicateKey[1]` when the key contains a
dot, `dump.query[i].Key = "meta"` otherwise. -/
def rewritePredicateKey (k : List Char) : List Char :=
  match (splitFirstDot k).2 with
  | some sub => "meta.".toList ++ sub
  | none => "meta".toList

/-- Embedding of the `for i, predicate := range dump.query` loop of
`DumpIntent` (mongodump.go lines 622-634): each predicate whose first dotted
segment differs from `metaKey` aborts with the "mongodump only processes
queries on metadata fields for timeseries collections" error; otherwise every
key is rewritten by `rewritePredicateKey`. -/
def rewriteTimeseriesQuery (metaKey : List Char) :
    List (List Char × Nat) → Except String (List (List Char × Nat))
  | [] => .ok []
  | (k, v) :: rest =>
    if (splitFirstDot k).1 ≠ metaKey then
      .error "cannot process query for timeseries collection"
    else
      match rewriteTimeseriesQuery metaKey rest with
      | .error e => .error e
      | .ok r => .ok ((rewritePredicateKey k, v) :: r)

/-- The query-translation step of `DumpIntent` (mongodump.go lines 605-637):
when a user query is set and the intent is timeseries, the rewrite runs; an
error return aborts `DumpIntent` before any dumping.  `.ok (some q)` is the
filter handed to `findQuery.Filter`; `.ok none` means no filter was set. -/
def dumpIntentQueryRewrite (hasQuery isTimeseries : Bool) (metaKey : List Char)
    (q : List (List Char × Nat)) : Except String (Option (List (List Char × Nat))) :=
  if hasQuery then
    if isTimeseries then
      match rewriteTimeseriesQuery metaKey q with
      | .error e => .error e
      | .ok q2 => .ok (some q2)
    else .ok (some q)
  else .ok none

/-- The rewrite the CLAIM describes: a key that is exactly the meta field `K`
becomes `meta`, and a key `K.sub` becomes `meta.sub`; uniformly, `meta`
followed by whatever follows `K` in the key. -/
def claimRewriteKey (metaKey k : List Char) : List Char :=
  "meta".toList ++ k.drop metaKey.length

/-! ## Dumping a single intent: `dumpValidatedQueryToIntent`
(mongodump.go lines 717-787) -/

/-- Outcomes of the external calls made by `dumpValidatedQueryToIntent`:
`intent.BSONFile.Open`, `getCount`, `query.Iter`,
`dumpValidatedIterToWriter` (the write phase), `buffer.Close`, and
`intent.BSONFile.Close`.  Base errors are `Nat` tags; `writeCount` is the
progressor count read back after the write phase. -/
structure IntentDumpEnv where
  openErr : Option Nat
  countResult : Except Nat Int
  iterErr : Option Nat
  writeErr : Option Nat
  writeCount : Int
  bufferCloseErr : Option Nat
  fileCloseErr : Option Nat

/-- The error result of `dumpValidatedQueryToIntent`, tagged with which call
produced the underlying error (the Go code wraps each in a distinct
`fmt.Errorf` message). -/
inductive IntentDumpErr where
  | openFailed (e : Nat)
  | countFailed (e : Nat)
  | iterFailed (e : Nat)
  | writeFailed (e : Nat)
  | bufferCloseFailed (e : Nat)
  | fileCloseFailed (e : Nat)
  deriving DecidableEq

/-- Observable events of `dumpValidatedQueryToIntent`.  `logged` is emitted by
nothing in this function: its body (mongodump.go lines 717-787) contains no
`log.Logvf` call, in particular none for a discarded close error. -/
inductive IntentEvent where
  | openStream
  | writePhase
  | closeBuffer
  | closeStream
  | logged (e : Nat)
  deriving DecidableEq

/-- One deferred close (mongodump.go lines 730-739 and 761-770): the close
error replaces the result error only when the result error is nil
(`if err == nil && closeErr != nil`). -/
def applyCloseErr (r : Int × Option IntentDumpErr) (closeErr : Option Nat)
    (mk : Nat → IntentDumpErr) : Int × Option IntentDumpErr :=
  match r.2, closeErr with
  | none, some e => (r.1, some (mk e))
  | _, _ => r

/-- Embedding of `dumpValidatedQueryToIntent` (mongodump.go lines 717-787).
Control flow mirrored: open (error returns before any defer is registered);
the `BSONFile.Close` defer; the view early return; `getCount`; the
`buffer.Close` defer (registered only when a buffer is attached, i.e. only
after `getCount` succeeds); `query.Iter`; the write phase.  Deferred closes
run in LIFO order: buffer first, then the data stream. -/
def dumpValidatedQueryToIntent (isView viewsAsColl hasBuffer : Bool)
    (env : IntentDumpEnv) : (Int × Option IntentDumpErr) × List IntentEvent :=
  match env.openErr with
  | some e => ((0, some (.openFailed e)), [])
  | none =>
    if isView && !viewsAsColl then
      (applyCloseErr (0, none) env.fileCloseErr .fileCloseFailed,
        [.openStream, .closeStream])
    else
      match env.countResult with
      | .error e =>
        (applyCloseErr (0, some (.countFailed e)) env.fileCloseErr .fileCloseFailed,
          [.openStream, .closeStream])
      | .ok _ =>
        let body : Int × Option IntentDumpErr :=
          match env.iterErr with
          | some e => (0, some (.iterFailed e))
          | none =>
            match env.writeErr with
            | some e => (env.writeCount, some (.writeFailed e))
            | none => (env.writeCount, none)
        let afterBuffer :=
          if hasBuffer then applyCloseErr body env.bufferCloseErr .bufferCloseFailed
          else body
        let final := applyCloseErr afterBuffer env.fileCloseErr .fileCloseFailed
        let evs := [IntentEvent.openStream]
          ++ (match env.iterErr with | some _ => [] | none => [IntentEvent.writePhase])
          ++ (if hasBuffer then [IntentEvent.closeBuffer] else [])
          ++ [IntentEvent.closeStream]
        (final, evs)

/-! ## `verifyCollectionExists` and the existence gate of `Dump`
(mongodump.go lines 188-203 and 231-239) -/

/-- Embedding of `MongoDump.verifyCollectionExists`: with no collection
selected it reports `true`; otherwise it consults `db.GetCollectionInfo`,
whose outcome (`collInfo`, possibly nil, or an error) is the argument. -/
def verifyCollectionExists (collection : String)
    (getInfo : Except Nat (Option Unit)) : Except Nat Bool :=
  if collection = "" then .ok true
  else
    match getInfo with
    | .error e => .error e
    | .ok info => .ok info.isSome

/-- Outcome of the existence gate at the top of `Dump`. -/
inductive ExistenceCheckOutcome where
  /-- `return fmt.Errorf("error verifying collection info: %v", err)` -/
  | failed (e : Nat)
  /-- the `log.Logvf(log.Always, "namespace ... does not exist")` warning ran
  and `Dump` returned nil before creating any intent or dumping anything -/
  | warnedNotFoundSuccess
  /-- `Dump` continues past the gate -/
  | proceed
  deriving DecidableEq

/-- Embedding of mongodump.go lines 231-239. -/
def dumpExistenceCheck (collection : String)
    (getInfo : Except Nat (Option Unit)) : ExistenceCheckOutcome :=
  match verifyCollectionExists collection getInfo with
  | .error e => .failed e
  | .ok false => .warnedNotFoundSuccess
  | .ok true => .proceed

/-! ## `DumpPreludeMetadata` (mongodump.go lines 938-993) -/

/-- The `PreludeData` struct: its two JSON-tagged string fields. -/
structure PreludeData where
  serverVersion : String
  toolVersion : String
  deriving DecidableEq

/-- Model of `json.Marshal(preludeData)` at the field level: the JSON object
fields, in struct order, with their JSON keys. -/
def marshalPreludeData (p : PreludeData) : List (String × String) :=
  [("ServerVersion", p.serverVersion), ("ToolVersion", p.toolVersion)]

/-- Outcome of `os.Create(filename)`: success, a failure satisfying
`errors.Is(err, os.ErrNotExist)`, or any other failure. -/
inductive CreateResult where
  | ok
  | errNotExist
  | errOther (e : Nat)
  deriving DecidableEq

/-- Error result of `DumpPreludeMetadata`. -/
inductive PreludeErr where
  | createFailed (e : Nat)
  | writeFailed (e : Nat)
  deriving DecidableEq

/-- The filename computation of `DumpPreludeMetadata` (mongodump.go lines
951-963), with `filepath.Join` modelled as `/`-concatenation. -/
def preludeFilename (dbName out : String) (gzip : Bool) : String :=
  let f := "prelude.json"
  let f := if dbName ≠ "" then dbName ++ "/" ++ f else f
  let f := if out = "" then "dump" ++ "/" ++ f else out ++ "/" ++ f
  if gzip then f ++ ".gz" else f

/-- Embedding of `DumpPreludeMetadata` (mongodump.go lines 945-993): on
`os.ErrNotExist` it returns nil having written nothing; on any other create
failure it returns the error; on success it writes the marshalled
`PreludeData` to the file.  The second component is the list of
`(filename, payload)` file writes performed. -/
def dumpPreludeMetadata (dbName out : String) (gzip : Bool) (sv tv : String)
    (createResult : CreateResult) (writeErr : Option Nat) :
    Option PreludeErr × List (String × List (String × String)) :=
  match createResult with
  | .errNotExist => (none, [])
  | .errOther e => (some (.createFailed e), [])
  | .ok =>
    let fn := preludeFilename dbName out gzip
    let payload := marshalPreludeData ⟨sv, tv⟩
    match writeErr with
    | some e => (some (.writeFailed e), [(fn, payload)])
    | none => (none, [(fn, payload)])

/-! ## Concrete configurations used to instantiate the theorems -/

/-- Dumping a named collection to stdout with gzip on: an invalid option set. -/
def gzipToStdoutDump : MongoDump where
  toolOptions := { db := "db1", collection := "c1", versionStr := "100.9.4" }
  inputOptions := { query := "", queryFile := "", tableScan := false,
                    sourceWritesDoneBarrier := "" }
  outputOptions := { out := "-", archive := "", gzip := true, oplog := false,
                     dumpDBUsersAndRoles := false, excludedCollections := [],
                     excludedCollectionPrefixes := [], numParallelCollections := 4,
                     viewsAsCollections := false }
  isAtlasProxy := false

/-- Naming a system.buckets collection directly: an invalid option set. -/
def systemBucketsDump : MongoDump where
  toolOptions := { db := "db1", collection := "system.buckets.weather",
                   versionStr := "100.9.4" }
  inputOptions := { query := "", queryFile := "", tableScan := false,
                    sourceWritesDoneBarrier := "" }
  outputOptions := { out := "dump", archive := "", gzip := false, oplog := false,
                     dumpDBUsersAndRoles := false, excludedCollections := [],
                     excludedCollectionPrefixes := [], numParallelCollections := 4,
                     viewsAsCollections := false }
  isAtlasProxy := false

/-- An intent-dump environment in which the write phase fails and both
deferred closes also fail. -/
def writeAndCloseFailEnv : IntentDumpEnv where
  openErr := none
  countResult := .ok 3
  iterErr := none
  writeErr := some 1
  writeCount := 3
  bufferCloseErr := some 2
  fileCloseErr := some 3

/-- An intent-dump environment in which every external call succeeds. -/
def allOkIntentEnv : IntentDumpEnv where
  openErr := none
  countResult := .ok 0
  iterErr := none
  writeErr := none
  writeCount := 0
  bufferCloseErr := none
  fileCloseErr := none

/-- The stdout sink: `out = "-"`, no archive. -/
def stdoutSinkOptions : OutputOptions where
  out := "-"
  archive := ""
  gzip := false
  oplog := false
  dumpDBUsersAndRoles := false
  excludedCollections := []
  excludedCollectionPrefixes := []
  numParallelCollections := 1
  viewsAsCollections := false

/-- The filesystem-tree sink: a directory `out`, no archive. -/
def treeSinkOptions : OutputOptions where
  out := "dump"
  archive := ""
  gzip := false
  oplog := false
  dumpDBUsersAndRoles := false
  excludedCollections := []
  excludedCollectionPrefixes := []
  numParallelCollections := 1
  viewsAsCollections := false

/-- An oplog-phase environment in which every external call succeeds. -/
def allOkOplogEnv : OplogPhaseEnv where
  barrierErr := none
  endTime := .ok 7
  check1Exists := true
  check1Err := none
  copyErr := none
  check2Exists := true
  check2Err := none
  oplogEntries := [2, 5, 7, 9]

/-! # Theorems -/

/-- If `ValidateOptions` returns nil then every one of its eighteen switch
conditions is false. -/
theorem validateOptions_none_facts (d : MongoDump) (hv : validateOptions d = none) :
    ¬(d.outputOptions.out = "-" ∧ d.toolOptions.collection = "")
    ∧ ¬(d.toolOptions.db = "" ∧ d.toolOptions.collection ≠ "")
    ∧ ¬(d.inputOptions.query ≠ "" ∧ d.toolOptions.collection = "")
    ∧ ¬(d.inputOptions.queryFile ≠ "" ∧ d.toolOptions.collection = "")
    ∧ ¬(d.inputOptions.query ≠ "" ∧ d.inputOptions.queryFile ≠ "")
    ∧ ¬(d.inputOptions.query ≠ "" ∧ d.inputOptions.tableScan = true)
    ∧ ¬(d.outputOptions.dumpDBUsersAndRoles = true ∧ d.toolOptions.db = "")
    ∧ ¬(d.outputOptions.dumpDBUsersAndRoles = true ∧ d.toolOptions.collection ≠ "")
    ∧ ¬(goHasPrefix d.toolOptions.collection "system.buckets." = true)
    ∧ ¬(d.outputOptions.oplog = true ∧ d.toolOptions.db ≠ "")
    ∧ ¬(d.outputOptions.excludedCollections ≠ [] ∧ d.toolOptions.collection ≠ "")
    ∧ ¬(d.outputOptions.excludedCollectionPrefixes ≠ [] ∧ d.toolOptions.collection ≠ "")
    ∧ ¬(d.outputOptions.excludedCollections ≠ [] ∧ d.toolOptions.db = "")
    ∧ ¬(d.outputOptions.excludedCollectionPrefixes ≠ [] ∧ d.toolOptions.db = "")
    ∧ ¬(d.outputOptions.out ≠ "" ∧ d.outputOptions.archive ≠ "")
    ∧ ¬(d.outputOptions.out = "-" ∧ d.outputOptions.gzip = true)
    ∧ ¬(d.outputOptions.numParallelCollections ≤ 0)
    ∧ ¬(d.isAtlasProxy = true
          ∧ (d.outputOptions.dumpDBUsersAndRoles = true ∨ d.toolOptions.db = "admin")) := by
  unfold validateOptions at hv
  by_cases c1 : d.outputOptions.out = "-" ∧ d.toolOptions.collection = ""
  · rw [if_pos c1] at hv; exact Option.noConfusion hv
  rw [if_neg c1] at hv
  by_cases c2 : d.toolOptions.db = "" ∧ d.toolOptions.collection ≠ ""
  · rw [if_pos c2] at hv; exact Option.noConfusion hv
  rw [if_neg c2] at hv
  by_cases c3 : d.inputOptions.query ≠ "" ∧ d.toolOptions.collection = ""
  · rw [if_pos c3] at hv; exact Option.noConfusion hv
  rw [if_neg c3] at hv
  by_cases c4 : d.inputOptions.queryFile ≠ "" ∧ d.toolOptions.collection = ""
  · rw [if_pos c4] at hv; exact Option.noConfusion hv
  rw [if_neg c4] at hv
  by_cases c5 : d.inputOptions.query ≠ "" ∧ d.inputOptions.queryFile ≠ ""
  · rw [if_pos c5] at hv; exact Option.noConfusion hv
  rw [if_neg c5] at hv
  by_cases c6 : d.inputOptions.query ≠ "" ∧ d.inputOptions.tableScan = true
  · rw [if_pos c6] at hv; exact Option.noConfusion hv
  rw [if_neg c6] at hv
  by_cases c7 : d.outputOptions.dumpDBUsersAndRoles = true ∧ d.toolOptions.db = ""
  · rw [if_pos c7] at hv; exact Option.noConfusion hv
  rw [if_neg c7] at hv
  by_cases c8 : d.outputOptions.dumpDBUsersAndRoles = true ∧ d.toolOptions.collection ≠ ""
  · rw [if_pos c8] at hv; exact Option.noConfusion hv
  rw [if_neg c8] at hv
  by_cases c9 : goHasPrefix d.toolOptions.collection "system.buckets." = true
  · rw [if_pos c9] at hv; exact Option.noConfusion hv
  rw [if_neg c9] at hv
  by_cases c10 : d.outputOptions.oplog = true ∧ d.toolOptions.db ≠ ""
  · rw [if_pos c10] at hv; exact Option.noConfusion hv
  rw [if_neg c10] at hv
  by_cases c11 : d.outputOptions.excludedCollections ≠ [] ∧ d.toolOptions.collection ≠ ""
  · rw [if_pos c11] at hv; exact Option.noConfusion hv
  rw [if_neg c11] at hv
  by_cases c12 : d.outputOptions.excludedCollectionPrefixes ≠ [] ∧ d.toolOptions.collection ≠ ""
  · rw [if_pos c12] at hv; exact Option.noConfusion hv
  rw [if_neg c12] at hv
  by_cases c13 : d.outputOptions.excludedCollections ≠ [] ∧ d.toolOptions.db = ""
  · rw [if_pos c13] at hv; exact Option.noConfusion hv
  rw [if_neg c13] at hv
  by_cases c14 : d.outputOptions.excludedCollectionPrefixes ≠ [] ∧ d.toolOptions.db = ""
  · rw [if_pos c14] at hv; exact Option.noConfusion hv
  rw [if_neg c14] at hv
  by_cases c15 : d.outputOptions.out ≠ "" ∧ d.outputOptions.archive ≠ ""
  · rw [if_pos c15] at hv; exact Option.noConfusion hv
  rw [if_neg c15] at hv
  by_cases c16 : d.outputOptions.out = "-" ∧ d.outputOptions.gzip = true
  · rw [if_pos c16] at hv; exact Option.noConfusion hv
  rw [if_neg c16] at hv
  by_cases c17 : d.outputOptions.numParallelCollections ≤ 0
  · rw [if_pos c17] at hv; exact Option.noConfusion hv
  rw [if_neg c17] at hv
  by_cases c18 : d.isAtlasProxy = true
      ∧ (d.outputOptions.dumpDBUsersAndRoles = true ∨ d.toolOptions.db = "admin")
  · rw [if_pos c18] at hv; exact Option.noConfusion hv
  exact ⟨c1, c2, c3, c4, c5, c6, c7, c8, c9, c10, c11, c12, c13, c14, c15, c16, c17, c18⟩

/-- C2: ValidateOptions returns an error for every option set in which out is
"-" and no collection is selected, in which out is "-" and gzip compression is
enabled, in which both archive and out are set, or in which
numParallelCollections is not a positive integer. -/
theorem validateOptions_rejects_incompatible (d : MongoDump)
    (h : (d.outputOptions.out = "-" ∧ d.toolOptions.collection = "")
       ∨ (d.outputOptions.out = "-" ∧ d.outputOptions.gzip = true)
       ∨ (d.outputOptions.out ≠ "" ∧ d.outputOptions.archive ≠ "")
       ∨ d.outputOptions.numParallelCollections ≤ 0) :
    (validateOptions d).isSome = true := by
  rcases hv : validateOptions d with _ | e
  · exfalso
    obtain ⟨f1, -, -, -, -, -, -, -, -, -, -, -, -, -, f15, f16, f17, -⟩ :=
      validateOptions_none_facts d hv
    rcases h with h1 | h1 | h1 | h1
    · exact f1 h1
    · exact f16 h1
    · exact f15 h1
    · exact f17 h1
  · rfl

/-- Witness for C2 at a concrete option set (gzip to stdout). -/
theorem validateOptions_rejects_incompatible_witness :
    ((gzipToStdoutDump.outputOptions.out = "-" ∧ gzipToStdoutDump.toolOptions.collection = "")
       ∨ (gzipToStdoutDump.outputOptions.out = "-" ∧ gzipToStdoutDump.outputOptions.gzip)
       ∨ (gzipToStdoutDump.outputOptions.out ≠ "" ∧ gzipToStdoutDump.outputOptions.archive ≠ "")
       ∨ gzipToStdoutDump.outputOptions.numParallelCollections ≤ 0)
    ∧ (validateOptions gzipToStdoutDump).isSome = true :=
  ⟨by decide, validateOptions_rejects_incompatible gzipToStdoutDump (by decide)⟩

/-- C9: for every option set whose selected collection name begins with the
prefix "system.buckets.", ValidateOptions returns an error. -/
theorem validateOptions_rejects_system_buckets_collection (d : MongoDump)
    (h : goHasPrefix d.toolOptions.collection "system.buckets." = true) :
    (validateOptions d).isSome = true := by
  rcases hv : validateOptions d with _ | e
  · exfalso
    obtain ⟨-, -, -, -, -, -, -, -, f9, -, -, -, -, -, -, -, -, -⟩ :=
      validateOptions_none_facts d hv
    exact f9 h
  · rfl

/-- Witness for C9 at a concrete option set naming a system.buckets
collection. -/
theorem validateOptions_rejects_system_buckets_collection_witness :
    goHasPrefix systemBucketsDump.toolOptions.collection "system.buckets." = true
    ∧ (validateOptions systemBucketsDump).isSome = true :=
  ⟨by decide, validateOptions_rejects_system_buckets_collection systemBucketsDump (by decide)⟩

/-- C4: DumpIntents spawns exactly min(numParallelCollections, number of
intents) worker tasks, and it finalizes the intent manager with the
LongestTaskFirst policy exactly when that worker count is greater than 1, and
with the Legacy (insertion-order) policy otherwise. -/
theorem dumpIntents_worker_count_and_policy (p : Int) (n : Nat) (hp : 1 ≤ p) :
    (dumpIntentsWorkers (dumpIntentsJobs p n) : Int) = min p (n : Int)
    ∧ (dumpIntentsPolicy (dumpIntentsJobs p n) = FinalizePolicy.longestTaskFirst
        ↔ 1 < min p (n : Int))
    ∧ (dumpIntentsPolicy (dumpIntentsJobs p n) = FinalizePolicy.legacy
        ↔ min p (n : Int) ≤ 1) := by
  refine ⟨?_, ?_, ?_⟩
  · simp only [dumpIntentsWorkers, dumpIntentsJobs]
    split <;> omega
  · simp only [dumpIntentsPolicy, dumpIntentsJobs]
    split <;> split <;> simp <;> omega
  · simp only [dumpIntentsPolicy, dumpIntentsJobs]
    split <;> split <;> simp <;> omega

/-- Witness for C4 at parallelism 4 and 2 intents. -/
theorem dumpIntents_worker_count_and_policy_witness :
    (1 : Int) ≤ 4
    ∧ ((dumpIntentsWorkers (dumpIntentsJobs 4 2) : Int) = min 4 (2 : Int)
       ∧ (dumpIntentsPolicy (dumpIntentsJobs 4 2) = FinalizePolicy.longestTaskFirst
           ↔ 1 < min 4 ((2 : Nat) : Int))
       ∧ (dumpIntentsPolicy (dumpIntentsJobs 4 2) = FinalizePolicy.legacy
           ↔ min 4 ((2 : Nat) : Int) ≤ 1)) :=
  ⟨by decide, dumpIntents_worker_count_and_policy 4 2 (by decide)⟩

/-- C6: when a collection is explicitly named and that namespace does not
exist on the server (`GetCollectionInfo` returns nil info), Dump takes the
warn-and-return-nil path without dumping anything; an error from the
existence check is returned as a failure. -/
theorem dump_named_collection_not_found (coll : String) (hc : coll ≠ "")
    (getInfo : Except Nat (Option Unit)) :
    (getInfo = .ok none → dumpExistenceCheck coll getInfo = .warnedNotFoundSuccess)
    ∧ (∀ e, getInfo = .error e → dumpExistenceCheck coll getInfo = .failed e) := by
  constructor
  · rintro rfl
    simp [dumpExistenceCheck, verifyCollectionExists, hc]
  · rintro e rfl
    simp [dumpExistenceCheck, verifyCollectionExists, hc]

/-- Witness for C6 at collection "coll1". -/
theorem dump_named_collection_not_found_witness :
    ("coll1" : String) ≠ ""
    ∧ (((Except.ok none : Except Nat (Option Unit)) = .ok none →
          dumpExistenceCheck "coll1" (.ok none) = .warnedNotFoundSuccess)
       ∧ (∀ e, (Except.ok none : Except Nat (Option Unit)) = .error e →
          dumpExistenceCheck "coll1" (.ok none) = .failed e)) :=
  ⟨by decide, dump_named_collection_not_found "coll1" (by decide) (.ok none)⟩

/-- C10: if creating prelude.json fails with a not-exist error, then
DumpPreludeMetadata returns success having written no file; any other create
failure is returned as an error. -/
theorem dumpPreludeMetadata_create_failure (dbName outDir : String) (gz : Bool)
    (sv tv : String) (w : Option Nat) :
    dumpPreludeMetadata dbName outDir gz sv tv .errNotExist w = (none, [])
    ∧ ∀ e, dumpPreludeMetadata dbName outDir gz sv tv (.errOther e) w
        = (some (.createFailed e), []) :=
  ⟨rfl, fun _ => rfl⟩

/-- C5: a view intent dumped while views-as-collections is off has its data
stream opened and then closed, no document bytes are written (no write-phase
event), and the dump returns success with a document count of 0. -/
theorem view_intent_dumps_empty (hasBuffer : Bool) (env : IntentDumpEnv)
    (hopen : env.openErr = none) (hclose : env.fileCloseErr = none) :
    dumpValidatedQueryToIntent true false hasBuffer env
      = ((0, none), [.openStream, .closeStream]) := by
  simp [dumpValidatedQueryToIntent, hopen, hclose, applyCloseErr]

/-- Witness for C5 in an all-success environment with a local buffer. -/
theorem view_intent_dumps_empty_witness :
    allOkIntentEnv.openErr = none
    ∧ allOkIntentEnv.fileCloseErr = none
    ∧ dumpValidatedQueryToIntent true false true allOkIntentEnv
      = ((0, none), [.openStream, .closeStream]) :=
  ⟨rfl, rfl, view_intent_dumps_empty true allOkIntentEnv rfl rfl⟩

/-- C7, counterexample to the claim as stated: in an environment where the
write phase fails with error 1 and both closes also fail (errors 2 and 3), the
write-phase error is indeed preserved as the result, but the close errors are
not "merely logged": `dumpValidatedQueryToIntent` (mongodump.go lines 717-787)
contains no log call at all, so no `logged` event appears in its trace; the
close error values are simply discarded. -/
theorem discarded_close_error_counterexample :
    (dumpValidatedQueryToIntent false false true writeAndCloseFailEnv).1
      = (3, some (.writeFailed 1))
    ∧ ∀ e, IntentEvent.logged e ∉ (dumpValidatedQueryToIntent false false true writeAndCloseFailEnv).2 := by
  constructor
  · rfl
  · intro e
    simp [dumpValidatedQueryToIntent, writeAndCloseFailEnv, applyCloseErr]

/-- C7 (amended: the ignored close error is discarded, not logged): when
dumping a single intent, if the write phase already produced an error, that
error is preserved as the result and a subsequent error from closing the data
stream or the local buffer does not replace it, the close error being
discarded without being logged; if the write phase succeeded, an error from
closing the local buffer or the data stream is surfaced as the result. -/
theorem write_error_precedence_over_close_errors (hasBuffer : Bool)
    (env : IntentDumpEnv) (total : Int)
    (hopen : env.openErr = none) (hcount : env.countResult = .ok total)
    (hiter : env.iterErr = none) :
    (∀ e, env.writeErr = some e →
        (dumpValidatedQueryToIntent false false hasBuffer env).1
          = (env.writeCount, some (.writeFailed e))
        ∧ ∀ e2, IntentEvent.logged e2
            ∉ (dumpValidatedQueryToIntent false false hasBuffer env).2)
    ∧ (env.writeErr = none → hasBuffer = true → ∀ e, env.bufferCloseErr = some e →
        (dumpValidatedQueryToIntent false false hasBuffer env).1
          = (env.writeCount, some (.bufferCloseFailed e)))
    ∧ (env.writeErr = none → (hasBuffer = false ∨ env.bufferCloseErr = none) →
        ∀ e, env.fileCloseErr = some e →
        (dumpValidatedQueryToIntent false false hasBuffer env).1
          = (env.writeCount, some (.fileCloseFailed e))) := by
  refine ⟨?_, ?_, ?_⟩
  · intro e he
    constructor
    · cases hasBuffer <;>
        simp [dumpValidatedQueryToIntent, hopen, hcount, hiter, he, applyCloseErr]
    · intro e2
      cases hasBuffer <;>
        simp [dumpValidatedQueryToIntent, hopen, hcount, hiter, he, applyCloseErr]
  · intro hw hb e he
    subst hb
    simp [dumpValidatedQueryToIntent, hopen, hcount, hiter, hw, he, applyCloseErr]
  · intro hw hb e he
    rcases hb with hb | hb
    · subst hb
      simp [dumpValidatedQueryToIntent, hopen, hcount, hiter, hw, he, applyCloseErr]
    · cases hasBuffer <;>
        simp [dumpValidatedQueryToIntent, hopen, hcount, hiter, hw, hb, he, applyCloseErr]

/-- Witness for the amended C7: write phase fails with error 1, both closes
fail, with a buffer attached; the result error is the write error. -/
theorem write_error_precedence_over_close_errors_witness :
    writeAndCloseFailEnv.openErr = none
    ∧ writeAndCloseFailEnv.countResult = .ok 3
    ∧ writeAndCloseFailEnv.iterErr = none
    ∧ writeAndCloseFailEnv.writeErr = some 1
    ∧ ((dumpValidatedQueryToIntent false false true writeAndCloseFailEnv).1
          = (writeAndCloseFailEnv.writeCount, some (.writeFailed 1))
       ∧ ∀ e2, IntentEvent.logged e2
            ∉ (dumpValidatedQueryToIntent false false true writeAndCloseFailEnv).2) :=
  ⟨rfl, rfl, rfl, rfl,
    (write_error_precedence_over_close_errors true writeAndCloseFailEnv 3
      rfl rfl rfl).1 1 rfl⟩

/-- A dot-free string is returned whole by `splitFirstDot`, with no
remainder. -/
theorem splitFirstDot_no_dot (k : List Char) (h : '.' ∉ k) :
    splitFirstDot k = (k, none) := by
  induction k with
  | nil => rfl
  | cons c rest ih =>
    have hc : ¬(c = '.') := by
      intro hc
      exact h (by simp [hc])
    have hrest : '.' ∉ rest := fun hm => h (List.mem_cons_of_mem _ hm)
    simp [splitFirstDot, hc, ih hrest]

/-- Splitting `mk ++ "." ++ sub` at the first dot recovers `mk` and `sub`
when `mk` is dot-free. -/
theorem splitFirstDot_prefix_dot (mk sub : List Char) (h : '.' ∉ mk) :
    splitFirstDot (mk ++ '.' :: sub) = (mk, some sub) := by
  induction mk with
  | nil => simp [splitFirstDot]
  | cons c rest ih =>
    have hc : ¬(c = '.') := by
      intro hc
      exact h (by simp [hc])
    have hrest : '.' ∉ rest := fun hm => h (List.mem_cons_of_mem _ hm)
    simp [splitFirstDot, hc, ih hrest]

/-- The two components of `splitFirstDot` reassemble to the original key. -/
theorem splitFirstDot_recover (k : List Char) :
    (splitFirstDot k).1 ++ ((splitFirstDot k).2.elim [] fun sub => '.' :: sub) = k := by
  induction k with
  | nil => rfl
  | cons c rest ih =>
    by_cases hc : c = '.'
    · subst hc
      simp [splitFirstDot]
    · simp [splitFirstDot, hc]
      exact ih

/-- On a key whose first dotted segment is `mk`, the in-loop rewrite agrees
with the claim-level rewrite `meta ++ (key minus its K namespace part)`. -/
theorem rewritePredicateKey_eq_claim (mk k : List Char)
    (hk : (splitFirstDot k).1 = mk) :
    rewritePredicateKey k = claimRewriteKey mk k := by
  have hrec := splitFirstDot_recover k
  rw [hk] at hrec
  unfold rewritePredicateKey claimRewriteKey
  rcases hsnd : (splitFirstDot k).2 with _ | sub
  · rw [hsnd] at hrec
    simp only [Option.elim, List.append_nil] at hrec
    subst hrec
    simp [List.drop_length]
  · rw [hsnd] at hrec
    rw [← hrec, List.drop_left]
    rfl

/-- When every predicate's first dotted segment is the meta key, the rewrite
loop succeeds and maps every key by the claim-level rewrite. -/
theorem rewriteTimeseriesQuery_all_meta (mk : List Char)
    (q : List (List Char × Nat))
    (h : ∀ p ∈ q, (splitFirstDot p.1).1 = mk) :
    rewriteTimeseriesQuery mk q
      = .ok (q.map fun p => (claimRewriteKey mk p.1, p.2)) := by
  induction q with
  | nil => rfl
  | cons p rest ih =>
    obtain ⟨k, v⟩ := p
    have hk : (splitFirstDot k).1 = mk := h (k, v) (by simp)
    have hrest := ih fun p hp => h p (List.mem_cons_of_mem _ hp)
    simp only [rewriteTimeseriesQuery]
    rw [if_neg (not_ne_iff.mpr hk), hrest]
    simp [rewritePredicateKey_eq_claim mk k hk]

/-- When some predicate's first dotted segment differs from the meta key, the
rewrite loop aborts with an error. -/
theorem rewriteTimeseriesQuery_rejects (mk : List Char)
    (q : List (List Char × Nat))
    (h : ∃ p ∈ q, (splitFirstDot p.1).1 ≠ mk) :
    ∃ e, rewriteTimeseriesQuery mk q = .error e := by
  induction q with
  | nil => simp at h
  | cons p rest ih =>
    obtain ⟨k, v⟩ := p
    by_cases hk : (splitFirstDot k).1 = mk
    · have hrest : ∃ p ∈ rest, (splitFirstDot p.1).1 ≠ mk := by
        rcases h with ⟨p, hp, hne⟩
        rcases List.mem_cons.mp hp with rfl | hp2
        · exact absurd hk hne
        · exact ⟨p, hp2, hne⟩
      obtain ⟨e, he⟩ := ih hrest
      refine ⟨e, ?_⟩
      simp only [rewriteTimeseriesQuery]
      rw [if_neg (not_ne_iff.mpr hk), he]
    · exact ⟨_, by simp only [rewriteTimeseriesQuery]; rw [if_pos hk]⟩

/-- C3, counterexample to the claim as stated: with a configured meta field
that itself contains a dot (metaField "a.b"), the predicate key "a.b" is
exactly the meta field, yet `DumpIntent` rejects the query instead of
rewriting the key to "meta": the code compares the key's first dotted segment
("a") against the whole meta field ("a.b"). -/
theorem timeseries_dotted_meta_field_counterexample :
    rewriteTimeseriesQuery "a.b".toList [("a.b".toList, 0)]
      = .error "cannot process query for timeseries collection"
    ∧ dumpIntentQueryRewrite true true "a.b".toList [("a.b".toList, 0)]
      ≠ .ok (some [("meta".toList, 0)]) := by
  refine ⟨rfl, ?_⟩
  intro h
  rw [show dumpIntentQueryRewrite true true "a.b".toList [("a.b".toList, 0)]
      = .error "cannot process query for timeseries collection" from rfl] at h
  exact Except.noConfusion h

/-- C3 (amended: for a configured meta field that contains no dot, as MongoDB
requires of timeseries metaFields): when a user query is supplied and the
intent is timeseries with meta field K, every predicate key exactly K is
rewritten to "meta" and every key K.sub to "meta.sub"; if any predicate's
first dotted segment is not K, the rewrite - and with it DumpIntent - fails
with an error before anything is dumped. -/
theorem timeseries_query_rewrite_on_meta_field (mk : List Char) (hmk : '.' ∉ mk)
    (q : List (List Char × Nat)) :
    ((∀ p ∈ q, p.1 = mk ∨ ∃ sub, p.1 = mk ++ '.' :: sub) →
        dumpIntentQueryRewrite true true mk q
          = .ok (some (q.map fun p => (claimRewriteKey mk p.1, p.2))))
    ∧ claimRewriteKey mk mk = "meta".toList
    ∧ (∀ sub, claimRewriteKey mk (mk ++ '.' :: sub) = "meta.".toList ++ sub)
    ∧ ((∃ p ∈ q, (splitFirstDot p.1).1 ≠ mk) →
        ∃ e, dumpIntentQueryRewrite true true mk q = .error e) := by
  refine ⟨?_, ?_, ?_, ?_⟩
  · intro hall
    have h2 : ∀ p ∈ q, (splitFirstDot p.1).1 = mk := by
      intro p hp
      rcases hall p hp with h1 | ⟨sub, h1⟩
      · rw [h1, splitFirstDot_no_dot mk hmk]
      · rw [h1, splitFirstDot_prefix_dot mk sub hmk]
    simp [dumpIntentQueryRewrite, rewriteTimeseriesQuery_all_meta mk q h2]
  · simp [claimRewriteKey, List.drop_length]
  · intro sub
    unfold claimRewriteKey
    rw [List.drop_left]
    rfl
  · intro hex
    obtain ⟨e, he⟩ := rewriteTimeseriesQuery_rejects mk q hex
    exact ⟨e, by simp [dumpIntentQueryRewrite, he]⟩

/-- Witness for the amended C3: meta field "m", query key "m.tag" is
rewritten to "meta.tag". -/
theorem timeseries_query_rewrite_on_meta_field_witness :
    '.' ∉ "m".toList
    ∧ dumpIntentQueryRewrite true true "m".toList [("m.tag".toList, 0)]
      = .ok (some [("meta.tag".toList, 0)]) := by
  refine ⟨by decide, ?_⟩
  have h := (timeseries_query_rewrite_on_meta_field "m".toList (by decide)
      [("m.tag".toList, 0)]).1 ?_
  · exact h
  · intro p hp
    simp only [List.mem_singleton] at hp
    subst hp
    exact Or.inr ⟨"tag".toList, rfl⟩

/-- Exhaustive case analysis of the phase II/III trace and result: one shape
per exit path of `Dump`'s collection-dump and oplog-capture phases. -/
theorem dumpCollectionsAndOplog_shape (ob hb : Bool) (ie : Option Nat)
    (start : Nat) (env : OplogPhaseEnv) :
    (∃ e, dumpCollectionsAndOplog ob hb ie start env
        = ([], some (.intentsErr e)))
    ∨ dumpCollectionsAndOplog ob hb ie start env = ([.collectionsDone], none)
    ∨ (∃ e, dumpCollectionsAndOplog ob hb ie start env
        = ([.collectionsDone], some (.barrierErr e)))
    ∨ (∃ e, dumpCollectionsAndOplog ob hb ie start env
        = ([.collectionsDone], some (.oplogEndErr e)))
    ∨ (∃ t, dumpCollectionsAndOplog ob hb ie start env
        = ([.collectionsDone, .recordEnd t, .precheck false], some .oplogOverflow))
    ∨ (∃ t e, dumpCollectionsAndOplog ob hb ie start env
        = ([.collectionsDone, .recordEnd t, .precheck true],
           some (.checkOverflowErr e)))
    ∨ (∃ t e, dumpCollectionsAndOplog ob hb ie start env
        = ([.collectionsDone, .recordEnd t, .precheck true,
            .copy (dumpOplogBetweenTimestamps start t env.oplogEntries)],
           some (.oplogCopyErr e)))
    ∨ (∃ t, dumpCollectionsAndOplog ob hb ie start env
        = ([.collectionsDone, .recordEnd t, .precheck true,
            .copy (dumpOplogBetweenTimestamps start t env.oplogEntries),
            .postcheck false], some .oplogOverflow))
    ∨ (∃ t e, dumpCollectionsAndOplog ob hb ie start env
        = ([.collectionsDone, .recordEnd t, .precheck true,
            .copy (dumpOplogBetweenTimestamps start t env.oplogEntries),
            .postcheck true], some (.checkOverflowErr e)))
    ∨ (∃ t, dumpCollectionsAndOplog ob hb ie start env
        = ([.collectionsDone, .recordEnd t, .precheck true,
            .copy (dumpOplogBetweenTimestamps start t env.oplogEntries),
            .postcheck true], none)) := by
  rcases ie with _ | e0
  · cases ob
    · exact Or.inr (Or.inl rfl)
    · rcases hbe : (if hb then env.barrierErr else none) with _ | eb
      · rcases het : env.endTime with e1 | t
        · refine Or.inr (Or.inr (Or.inr (Or.inl ⟨e1, ?_⟩)))
          simp [dumpCollectionsAndOplog, oplogPhase, oplogCaptureSteps, hbe, het]
        · cases hc1 : env.check1Exists
          · refine Or.inr (Or.inr (Or.inr (Or.inr (Or.inl ⟨t, ?_⟩))))
            simp [dumpCollectionsAndOplog, oplogPhase, oplogCaptureSteps, hbe, het, hc1]
          · rcases hc1e : env.check1Err with _ | ec
            · rcases hcp : env.copyErr with _ | ecp
              · cases hc2 : env.check2Exists
                · refine Or.inr (Or.inr (Or.inr (Or.inr (Or.inr (Or.inr
                    (Or.inr (Or.inl ⟨t, ?_⟩)))))))
                  simp [dumpCollectionsAndOplog, oplogPhase, oplogCaptureSteps,
                    hbe, het, hc1, hc1e, hcp, hc2]
                · rcases hc2e : env.check2Err with _ | ec2
                  · refine Or.inr (Or.inr (Or.inr (Or.inr (Or.inr (Or.inr
                      (Or.inr (Or.inr (Or.inr ⟨t, ?_⟩))))))))
                    simp [dumpCollectionsAndOplog, oplogPhase, oplogCaptureSteps,
                      hbe, het, hc1, hc1e, hcp, hc2, hc2e]
                  · refine Or.inr (Or.inr (Or.inr (Or.inr (Or.inr (Or.inr
                      (Or.inr (Or.inr (Or.inl ⟨t, ec2, ?_⟩))))))))
                    simp [dumpCollectionsAndOplog, oplogPhase, oplogCaptureSteps,
                      hbe, het, hc1, hc1e, hcp, hc2, hc2e]
              · refine Or.inr (Or.inr (Or.inr (Or.inr (Or.inr (Or.inr
                  (Or.inl ⟨t, ecp, ?_⟩))))))
                simp [dumpCollectionsAndOplog, oplogPhase, oplogCaptureSteps,
                  hbe, het, hc1, hc1e, hcp]
            · refine Or.inr (Or.inr (Or.inr (Or.inr (Or.inr (Or.inl ⟨t, ec, ?_⟩)))))
              simp [dumpCollectionsAndOplog, oplogPhase, oplogCaptureSteps,
                hbe, het, hc1, hc1e]
      · refine Or.inr (Or.inr (Or.inl ⟨eb, ?_⟩))
        simp [dumpCollectionsAndOplog, oplogPhase, hbe]
  · exact Or.inl ⟨e0, rfl⟩

/-- C1: with oplog capture enabled, the end timestamp is recorded only after
all collection dumps finish; the pre-check of the start timestamp fails with
the oplog-overflow error and then no copy runs; the copy runs after the end
timestamp is recorded and copies exactly the oplog entries with
start ≤ ts ≤ end (inclusive); a failed post-check yields the oplog-overflow
error; and any post-check happens only after the copy. -/
theorem dump_oplog_capture_protocol (hb : Bool) (ie : Option Nat) (start : Nat)
    (env : OplogPhaseEnv) :
    (∀ ts, OplogEvent.recordEnd ts ∈ (dumpCollectionsAndOplog true hb ie start env).1 →
        eventBefore (dumpCollectionsAndOplog true hb ie start env).1
          .collectionsDone (.recordEnd ts))
    ∧ (OplogEvent.precheck false ∈ (dumpCollectionsAndOplog true hb ie start env).1 →
        (dumpCollectionsAndOplog true hb ie start env).2 = some .oplogOverflow
        ∧ ∀ c, OplogEvent.copy c ∉ (dumpCollectionsAndOplog true hb ie start env).1)
    ∧ (∀ c, OplogEvent.copy c ∈ (dumpCollectionsAndOplog true hb ie start env).1 →
        OplogEvent.precheck true ∈ (dumpCollectionsAndOplog true hb ie start env).1
        ∧ ∃ tEnd, c = dumpOplogBetweenTimestamps start tEnd env.oplogEntries
            ∧ eventBefore (dumpCollectionsAndOplog true hb ie start env).1
                (.recordEnd tEnd) (.copy c))
    ∧ (OplogEvent.postcheck false ∈ (dumpCollectionsAndOplog true hb ie start env).1 →
        (dumpCollectionsAndOplog true hb ie start env).2 = some .oplogOverflow)
    ∧ (∀ b c, OplogEvent.postcheck b ∈ (dumpCollectionsAndOplog true hb ie start env).1 →
        OplogEvent.copy c ∈ (dumpCollectionsAndOplog true hb ie start env).1 →
        eventBefore (dumpCollectionsAndOplog true hb ie start env).1
          (.copy c) (.postcheck b)) := by
  rcases dumpCollectionsAndOplog_shape true hb ie start env with
    ⟨e, h⟩ | h | ⟨e, h⟩ | ⟨e, h⟩ | ⟨t, h⟩ | ⟨t, e, h⟩ | ⟨t, e, h⟩ | ⟨t, h⟩ | ⟨t, e, h⟩ | ⟨t, h⟩
  · refine ⟨?_, ?_, ?_, ?_, ?_⟩
    · intro ts hts; simp [h] at hts
    · intro hpc; simp [h] at hpc
    · intro c hc; simp [h] at hc
    · intro hpost; simp [h] at hpost
    · intro b c hpb hc; simp [h] at hc
  · refine ⟨?_, ?_, ?_, ?_, ?_⟩
    · intro ts hts; simp [h] at hts
    · intro hpc; simp [h] at hpc
    · intro c hc; simp [h] at hc
    · intro hpost; simp [h] at hpost
    · intro b c hpb hc; simp [h] at hc
  · refine ⟨?_, ?_, ?_, ?_, ?_⟩
    · intro ts hts; simp [h] at hts
    · intro hpc; simp [h] at hpc
    · intro c hc; simp [h] at hc
    · intro hpost; simp [h] at hpost
    · intro b c hpb hc; simp [h] at hc
  · refine ⟨?_, ?_, ?_, ?_, ?_⟩
    · intro ts hts; simp [h] at hts
    · intro hpc; simp [h] at hpc
    · intro c hc; simp [h] at hc
    · intro hpost; simp [h] at hpost
    · intro b c hpb hc; simp [h] at hc
  · -- trace [collectionsDone, recordEnd t, precheck false]
    refine ⟨?_, ?_, ?_, ?_, ?_⟩
    · intro ts hts
      simp [h] at hts
      subst hts
      rw [h]
      exact ⟨0, 1, by omega, rfl, rfl⟩
    · intro hpc
      rw [h]
      simp
    · intro c hc; simp [h] at hc
    · intro hpost; simp [h] at hpost
    · intro b c hpb hc; simp [h] at hc
  · -- trace [collectionsDone, recordEnd t, precheck true], check error
    refine ⟨?_, ?_, ?_, ?_, ?_⟩
    · intro ts hts
      simp [h] at hts
      subst hts
      rw [h]
      exact ⟨0, 1, by omega, rfl, rfl⟩
    · intro hpc; simp [h] at hpc
    · intro c hc; simp [h] at hc
    · intro hpost; simp [h] at hpost
    · intro b c hpb hc; simp [h] at hc
  · -- trace [collectionsDone, recordEnd t, precheck true, copy], copy error
    refine ⟨?_, ?_, ?_, ?_, ?_⟩
    · intro ts hts
      simp [h] at hts
      subst hts
      rw [h]
      exact ⟨0, 1, by omega, rfl, rfl⟩
    · intro hpc; simp [h] at hpc
    · intro c hc
      simp [h] at hc
      subst hc
      refine ⟨by simp [h], t, rfl, ?_⟩
      rw [h]
      exact ⟨1, 3, by omega, rfl, rfl⟩
    · intro hpost; simp [h] at hpost
    · intro b c hpb hc; simp [h] at hpb
  · -- full trace, postcheck false
    refine ⟨?_, ?_, ?_, ?_, ?_⟩
    · intro ts hts
      simp [h] at hts
      subst hts
      rw [h]
      exact ⟨0, 1, by omega, rfl, rfl⟩
    · intro hpc; simp [h] at hpc
    · intro c hc
      simp [h] at hc
      subst hc
      refine ⟨by simp [h], t, rfl, ?_⟩
      rw [h]
      exact ⟨1, 3, by omega, rfl, rfl⟩
    · intro hpost
      rw [h]
    · intro b c hpb hc
      simp [h] at hpb hc
      subst hpb
      subst hc
      rw [h]
      exact ⟨3, 4, by omega, rfl, rfl⟩
  · -- full trace, postcheck true, second check error
    refine ⟨?_, ?_, ?_, ?_, ?_⟩
    · intro ts hts
      simp [h] at hts
      subst hts
      rw [h]
      exact ⟨0, 1, by omega, rfl, rfl⟩
    · intro hpc; simp [h] at hpc
    · intro c hc
      simp [h] at hc
      subst hc
      refine ⟨by simp [h], t, rfl, ?_⟩
      rw [h]
      exact ⟨1, 3, by omega, rfl, rfl⟩
    · intro hpost; simp [h] at hpost
    · intro b c hpb hc
      simp [h] at hpb hc
      subst hpb
      subst hc
      rw [h]
      exact ⟨3, 4, by omega, rfl, rfl⟩
  · -- full trace, success
    refine ⟨?_, ?_, ?_, ?_, ?_⟩
    · intro ts hts
      simp [h] at hts
      subst hts
      rw [h]
      exact ⟨0, 1, by omega, rfl, rfl⟩
    · intro hpc; simp [h] at hpc
    · intro c hc
      simp [h] at hc
      subst hc
      refine ⟨by simp [h], t, rfl, ?_⟩
      rw [h]
      exact ⟨1, 3, by omega, rfl, rfl⟩
    · intro hpost; simp [h] at hpost
    · intro b c hpb hc
      simp [h] at hpb hc
      subst hpb
      subst hc
      rw [h]
      exact ⟨3, 4, by omega, rfl, rfl⟩

/-- Witness for C1 in an all-success environment: the copy event is present
and carries exactly the inclusive-range entries, after the recorded end
timestamp. -/
theorem dump_oplog_capture_protocol_witness :
    OplogEvent.copy [5, 7] ∈ (dumpCollectionsAndOplog true false none 3 allOkOplogEnv).1
    ∧ (OplogEvent.precheck true ∈ (dumpCollectionsAndOplog true false none 3 allOkOplogEnv).1
       ∧ ∃ tEnd, [5, 7] = dumpOplogBetweenTimestamps 3 tEnd allOkOplogEnv.oplogEntries
           ∧ eventBefore (dumpCollectionsAndOplog true false none 3 allOkOplogEnv).1
               (.recordEnd tEnd) (.copy [5, 7])) :=
  ⟨by decide,
    (dump_oplog_capture_protocol false none 3 allOkOplogEnv).2.2.1 [5, 7] (by decide)⟩

/-- C8, counterexample to the claim as stated: a successful dump to the
standard-output sink (`out = "-"`, no archive) does not run the
prelude-emission phase at all - `Dump` gates phase IV on
`Archive == "" && Out != "-"`, which excludes the stdout sink. -/
theorem prelude_phase_skipped_for_stdout_counterexample :
    shouldDumpPreludeMetadata stdoutSinkOptions = false
    ∧ OplogEvent.preludePhase ∉ (dumpPhases false false none 0 allOkOplogEnv stdoutSinkOptions).1
    ∧ (dumpPhases false false none 0 allOkOplogEnv stdoutSinkOptions).2 = none :=
  ⟨rfl, by decide, rfl⟩

/-- C8 (amended: the prelude-emission phase runs for the filesystem-tree sink
and not for the archive or standard-output sinks): after collection dumping
(and oplog capture, when enabled) succeed, the prelude phase runs exactly when
no archive is configured and out is not "-", and writes a prelude.json whose
JSON content consists exactly of the ServerVersion and ToolVersion string
fields. -/
theorem prelude_phase_gating_and_content (o : OutputOptions)
    (dbName outDir sv tv : String) (gz : Bool) (w : Option Nat)
    (ob hb : Bool) (ie : Option Nat) (start : Nat) (env : OplogPhaseEnv) :
    (shouldDumpPreludeMetadata o = true ↔ (o.archive = "" ∧ o.out ≠ "-"))
    ∧ (OplogEvent.preludePhase ∈ (dumpPhases ob hb ie start env o).1 →
        shouldDumpPreludeMetadata o = true
        ∧ eventBefore (dumpPhases ob hb ie start env o).1
            .collectionsDone .preludePhase)
    ∧ (dumpPreludeMetadata dbName outDir gz sv tv .ok w).2
        = [(preludeFilename dbName outDir gz, [("ServerVersion", sv), ("ToolVersion", tv)])] := by
  refine ⟨?_, ?_, ?_⟩
  · simp [shouldDumpPreludeMetadata]
  · intro hpp
    rcases dumpCollectionsAndOplog_shape ob hb ie start env with
      ⟨e, h⟩ | h | ⟨e, h⟩ | ⟨e, h⟩ | ⟨t, h⟩ | ⟨t, e, h⟩ | ⟨t, e, h⟩ | ⟨t, h⟩ | ⟨t, e, h⟩ | ⟨t, h⟩
    · simp [dumpPhases, h] at hpp
    · by_cases hg : shouldDumpPreludeMetadata o = true
      · refine ⟨hg, ?_⟩
        simp only [dumpPhases, h, hg, if_true]
        exact ⟨0, 1, by omega, rfl, rfl⟩
      · simp [dumpPhases, h, hg] at hpp
    · simp [dumpPhases, h] at hpp
    · simp [dumpPhases, h] at hpp
    · simp [dumpPhases, h] at hpp
    · simp [dumpPhases, h] at hpp
    · simp [dumpPhases, h] at hpp
    · simp [dumpPhases, h] at hpp
    · simp [dumpPhases, h] at hpp
    · by_cases hg : shouldDumpPreludeMetadata o = true
      · refine ⟨hg, ?_⟩
        simp only [dumpPhases, h, hg, if_true]
        exact ⟨0, 5, by omega, rfl, rfl⟩
      · simp [dumpPhases, h, hg] at hpp
  · cases w <;> rfl

/-- Witness for the amended C8: tree sink, oplog off, successful collection
dump; the prelude phase runs after the collections finish. -/
theorem prelude_phase_gating_and_content_witness :
    OplogEvent.preludePhase ∈ (dumpPhases false false none 0 allOkOplogEnv treeSinkOptions).1
    ∧ (shouldDumpPreludeMetadata treeSinkOptions = true
       ∧ eventBefore (dumpPhases false false none 0 allOkOplogEnv treeSinkOptions).1
           .collectionsDone .preludePhase) :=
  ⟨by decide,
    (prelude_phase_gating_and_content treeSinkOptions "db1" "dump" "7.0.2" "100.9.4"
      false none false false none 0 allOkOplogEnv).2.1 (by decide)⟩
